import Mathlib

/-!
Verification of the modular-input lifecycle engine
(`solnlib/modular_input/modular_input.py`).

The engine is embedded shallowly: the class-level configuration of a
`ModularInput` subclass becomes a `Config` record, the per-invocation
mutable attributes set in `__init__` become an `EngineState` record, and
`execute()` becomes a pure function from the configuration, the argument
vector and the ambient behaviour of the external collaborators (stdin
parsing, the user-supplied run/validate operations, sink `close()` and
monitor `stop()`) to an observable trace: the outcome (a returned exit
code or an escaped exception), the calls made to the user operations,
the cleanup calls, the stream outputs and the log records.

Python exceptions are values of `PyExc`; code that can raise returns
`Except PyExc _`.  The XML codecs of the external `splunklib` / `ET`
collaborators are not part of this repository's sources and are
modelled from the spec where needed.
-/

namespace Solnlib

/-- Python exception values relevant to the engine: `binding.HTTPError`
(the transport-level class caught by the event-writer fallback), an
`AssertionError` carrying its message, and a generic `Exception`
carrying its message. -/
inductive PyExc where
  | httpError : PyExc
  | assertionError : String → PyExc
  | exc : String → PyExc
deriving DecidableEq, Repr

/-- Python `str(e)` on the exceptions of `PyExc`. -/
def py_str : PyExc → String
  | .httpError => "HTTP Error"
  | .assertionError m => m
  | .exc m => m

/-- Log levels used by the engine (`logging.info` / `logging.error` /
`logging.warning`). -/
inductive LogLevel where
  | info : LogLevel
  | warning : LogLevel
  | error : LogLevel
deriving DecidableEq, Repr

/-- One log record: a level and a formatted message. -/
structure LogRecord where
  level : LogLevel
  msg : String
deriving DecidableEq, Repr

/-- XML trees, as produced by the `ET` collaborator: an element with a
tag, attributes and children, or a text node. -/
inductive Xml where
  | elem : String → List (String × String) → List Xml → Xml
  | text : String → Xml

/-- Escape one character of XML character data. -/
def xml_escape_char (c : Char) : String :=
  if c = '&' then "&amp;"
  else if c = '<' then "&lt;"
  else if c = '>' then "&gt;"
  else String.singleton c

/-- Escape a string for use as XML character data. -/
def xml_escape (s : String) : String :=
  String.join (s.toList.map xml_escape_char)

/-- Render an attribute list as the inside of a start tag. -/
def attrs_string : List (String × String) → String
  | [] => ""
  | (k, v) :: rest => " " ++ k ++ "=\"" ++ xml_escape v ++ "\"" ++ attrs_string rest

mutual

/-- Serialize an XML tree to a string, as `ET.tostring` does. -/
def xml_to_string : Xml → String
  | .text t => xml_escape t
  | .elem n attrs cs =>
      "<" ++ n ++ attrs_string attrs ++ ">" ++ xml_list_to_string cs ++ "</" ++ n ++ ">"

/-- Serialize a list of XML trees to a string. -/
def xml_list_to_string : List Xml → String
  | [] => ""
  | x :: rest => xml_to_string x ++ xml_list_to_string rest

end

/-- The `<error><message>…</message></error>` document written to stderr
when ValidateMode fails (`execute`, lines 397-399 of the source). -/
def error_doc (msg : String) : String :=
  xml_to_string (.elem "error" [] [.elem "message" [] [.text msg]])

/-- One argument descriptor as returned by `extra_arguments()`: a dict
with a mandatory `name` and optional further keys (absent keys are
`none`; `_do_scheme` fills in the documented defaults). -/
structure ArgDescriptor where
  name : String
  title : Option String := none
  description : Option String := none
  validation : Option String := none
  data_type : Option String := none
  required_on_edit : Option Bool := none
  required_on_create : Option Bool := none
deriving DecidableEq, Repr

/-- A fully defaulted scheme argument, mirroring
`splunklib.modularinput.argument.Argument` as constructed by
`_do_scheme`. -/
structure Argument where
  name : String
  title : Option String
  description : Option String
  validation : Option String
  data_type : String
  required_on_edit : Bool
  required_on_create : Bool
deriving DecidableEq, Repr

/-- The defaulting performed by `_do_scheme` (source lines 248-261):
`data_type` defaults to the string data type, the two required flags
default to `False`, the other optional fields default to `None`. -/
def to_argument (d : ArgDescriptor) : Argument :=
  { name := d.name
    title := d.title
    description := d.description
    validation := d.validation
    data_type := d.data_type.getD "string"
    required_on_edit := d.required_on_edit.getD false
    required_on_create := d.required_on_create.getD false }

/-- The declarative scheme built by `_do_scheme`, mirroring
`splunklib.modularinput.scheme.Scheme`. -/
structure Scheme where
  title : String
  description : Option String
  use_external_validation : Bool
  streaming_mode : String
  use_single_instance : Bool
  arguments : List Argument
deriving DecidableEq, Repr

/-- The class-level configuration of a `ModularInput` subclass, plus the
overridable `extra_arguments()` result as data. -/
structure Config where
  app : String
  name : String
  title : String
  description : Option String
  use_external_validation : Bool := false
  use_single_instance : Bool := false
  use_hec_event_writer : Bool := true
  hec_input_name : String := ""
  extra_arguments : List ArgDescriptor := []

/-- The scheme object built by `_do_scheme` (source lines 241-261).
Note that the source assigns `scheme.use_single_instance =
self.use_external_validation` (line 246), not `self.use_single_instance`. -/
def do_scheme_struct (cfg : Config) : Scheme :=
  { title := cfg.title
    description := cfg.description
    use_external_validation := cfg.use_external_validation
    streaming_mode := "xml"
    use_single_instance := cfg.use_external_validation
    arguments := cfg.extra_arguments.map to_argument }

/-- Render a Boolean the way Python `str(b).lower()` does. -/
def bool_text (b : Bool) : String := if b then "true" else "false"

/-- Serialize an optional text child element, present only when the
field is set. -/
def opt_elem (tag : String) : Option String → List Xml
  | some t => [.elem tag [] [.text t]]
  | none => []

/-- Modelled from the spec: serialization of one argument descriptor by
the external `splunklib` Argument XML codec (spec section 6: "ordered
list of argument elements (name, title, description, validation
expression, data type, required-on-edit, required-on-create)").  The
codec itself is not among this repository's sources. -/
def argument_to_xml (a : Argument) : Xml :=
  .elem "arg" [("name", a.name)]
    (opt_elem "title" a.title
     ++ opt_elem "description" a.description
     ++ opt_elem "validation" a.validation
     ++ [.elem "data_type" [] [.text a.data_type],
         .elem "required_on_edit" [] [.text (bool_text a.required_on_edit)],
         .elem "required_on_create" [] [.text (bool_text a.required_on_create)]])

/-- Modelled from the spec: the scheme XML document emitted in
SchemeMode (spec section 6: "XML scheme document: title, description,
external-validation flag, single-instance flag, fixed
streaming-mode attribute, ordered list of argument elements").  The
`splunklib` Scheme codec is not among this repository's sources. -/
def scheme_to_xml (s : Scheme) : Xml :=
  .elem "scheme" []
    ([Xml.elem "title" [] [.text s.title]]
     ++ opt_elem "description" s.description
     ++ [.elem "use_external_validation" [] [.text (bool_text s.use_external_validation)],
         .elem "use_single_instance" [] [.text (bool_text s.use_single_instance)],
         .elem "streaming_mode" [] [.text s.streaming_mode],
         .elem "endpoint" [] [.elem "args" [] (s.arguments.map argument_to_xml)]])

/-- The string written to stdout in SchemeMode:
`ET.tostring(scheme.to_xml())` (source line 263). -/
def do_scheme_string (cfg : Config) : String :=
  xml_to_string (scheme_to_xml (do_scheme_struct cfg))

/-!
Scheme XML parsing, used for the round-trip property.  The parsers
invert the spec-modelled serializers above.
-/

/-- Parse `str(b).lower()` back into a Boolean. -/
def parse_bool : String → Option Bool
  | "true" => some true
  | "false" => some false
  | _ => none

/-- The text of the first child element with the given tag holding a
single text node, if any. -/
def child_text (tag : String) : List Xml → Option String
  | .elem n _ [.text t] :: rest =>
      if n = tag then some t else child_text tag rest
  | _ :: rest => child_text tag rest
  | [] => none

/-- The children of the first child element with the given tag. -/
def find_child_elem (tag : String) : List Xml → Option (List Xml)
  | .elem n _ cs :: rest => if n = tag then some cs else find_child_elem tag rest
  | _ :: rest => find_child_elem tag rest
  | [] => none

/-- Reconstruct one argument from its `arg` element. -/
def parse_argument : Xml → Option Argument
  | .elem n attrs children =>
      if n = "arg" then
        match attrs.lookup "name", child_text "data_type" children,
              (child_text "required_on_edit" children).bind parse_bool,
              (child_text "required_on_create" children).bind parse_bool with
        | some nm, some dt, some roe, some roc =>
            some { name := nm
                   title := child_text "title" children
                   description := child_text "description" children
                   validation := child_text "validation" children
                   data_type := dt
                   required_on_edit := roe
                   required_on_create := roc }
        | _, _, _, _ => none
      else none
  | _ => none

/-- Reconstruct an argument list from a list of `arg` elements,
failing if any element fails to parse. -/
def parse_arguments : List Xml → Option (List Argument)
  | [] => some []
  | x :: rest =>
      match parse_argument x, parse_arguments rest with
      | some a, some tl => some (a :: tl)
      | _, _ => none

/-- Reconstruct the argument list from an emitted scheme document. -/
def parse_scheme_arguments (x : Xml) : Option (List Argument) :=
  match x with
  | .elem n _ children =>
      if n = "scheme" then
        match find_child_elem "endpoint" children with
        | some eps =>
            match find_child_elem "args" eps with
            | some argEls => parse_arguments argEls
            | none => none
        | none => none
      else none
  | _ => none

/-!
Engine state and the metadata-derived properties.
-/

/-- The per-invocation attributes set by `ModularInput.__init__`
(source lines 98-112): every metadata field starts as `None`. -/
structure EngineState where
  _server_host_name : Option String
  _server_uri : Option String
  _server_scheme : Option String
  _server_host : Option String
  _server_port : Option (Option Nat)
  _session_key : Option String
  _checkpoint_dir : Option String
deriving DecidableEq, Repr

/-- The state of a freshly constructed engine (`__init__`). -/
def init_engine_state : EngineState :=
  { _server_host_name := none
    _server_uri := none
    _server_scheme := none
    _server_host := none
    _server_port := none
    _session_key := none
    _checkpoint_dir := none }

/-- The `server_host_name` property (source lines 124-132): it simply
returns the stored attribute and cannot raise. -/
def server_host_name (s : EngineState) : Except PyExc (Option String) :=
  .ok s._server_host_name

/-- The `server_uri` property (source lines 134-142). -/
def server_uri (s : EngineState) : Except PyExc (Option String) :=
  .ok s._server_uri

/-- The `server_scheme` property (source lines 144-152). -/
def server_scheme (s : EngineState) : Except PyExc (Option String) :=
  .ok s._server_scheme

/-- The `server_host` property (source lines 154-162). -/
def server_host (s : EngineState) : Except PyExc (Option String) :=
  .ok s._server_host

/-- The `server_port` property (source lines 164-172). -/
def server_port (s : EngineState) : Except PyExc (Option (Option Nat)) :=
  .ok s._server_port

/-- The `session_key` property (source lines 174-182). -/
def session_key (s : EngineState) : Except PyExc (Option String) :=
  .ok s._session_key

/-- The `checkpoint_dir` attribute read (by `checkpointer`, line 205). -/
def checkpoint_dir (s : EngineState) : Except PyExc (Option String) :=
  .ok s._checkpoint_dir

/-- The pieces of a split URI, as returned by the external
`urlsplit` collaborator. -/
structure SplitUri where
  scheme : String
  hostname : String
  port : Option Nat
deriving DecidableEq, Repr

/-- Modelled from the spec: the `urllib` URI splitter used by
`_update_metadata` (spec section 4.2: "a server endpoint
(scheme/host/port) derived by parsing the HostMetadata's server URI");
the splitter itself is not among this repository's sources.  Splits
`scheme://host:port` into its components. -/
def urlsplit (uri : String) : SplitUri :=
  match uri.splitOn "://" with
  | [sch, rest] =>
      (match rest.splitOn ":" with
       | [h, p] => { scheme := sch, hostname := h, port := p.toNat? }
       | _ => { scheme := sch, hostname := rest, port := none })
  | _ => { scheme := "", hostname := uri, port := none }

/-- The host metadata dictionary decoded from the stdin payload:
`server_host`, `server_uri`, `session_key`, `checkpoint_dir`. -/
structure MetadataDict where
  server_host : String
  server_uri : String
  session_key : String
  checkpoint_dir : String
deriving DecidableEq, Repr

/-- `_update_metadata` (source lines 114-122): populate every
metadata attribute from the decoded dictionary. -/
def update_metadata (m : MetadataDict) : EngineState :=
  { _server_host_name := some m.server_host
    _server_uri := some m.server_uri
    _server_scheme := some (urlsplit m.server_uri).scheme
    _server_host := some (urlsplit m.server_uri).hostname
    _server_port := some (urlsplit m.server_uri).port
    _session_key := some m.session_key
    _checkpoint_dir := some m.checkpoint_dir }

/-!
Event-writer selection (`ModularInput.event_writer`, source lines
209-239).
-/

/-- The two event-sink backends. -/
inductive EventWriter where
  | hec : EventWriter
  | classic : EventWriter
deriving DecidableEq, Repr

/-- The observable result of one access to the `event_writer`
property: its outcome (a writer, or an escaped exception), the log
records it emitted, and whether the HEC constructor was invoked. -/
structure EWTrace where
  outcome : Except PyExc EventWriter
  logs : List LogRecord
  hecAttempted : Bool
deriving Repr

/-- The `event_writer` property.  `cached` is `self._event_writer`
before the access; `hecCtor` is the outcome the `HECEventWriter`
constructor would have (it is an external collaborator, so its
behaviour is an input).  Faithful to source lines 221-239: a cached
writer is returned as is; with `use_hec_event_writer` set the property
first asserts `hec_input_name` is truthy (a non-empty string), then
constructs the HEC writer, catching only `binding.HTTPError`, on which
it logs one error-level record and substitutes a classic writer; any
other constructor exception propagates. -/
def event_writer_prop (cfg : Config) (cached : Option EventWriter)
    (hecCtor : Except PyExc Unit) : EWTrace :=
  match cached with
  | some w => { outcome := .ok w, logs := [], hecAttempted := false }
  | none =>
      if cfg.use_hec_event_writer then
        if cfg.hec_input_name = "" then
          { outcome := .error (.assertionError "hec_input_name is not set")
            logs := []
            hecAttempted := false }
        else
          match hecCtor with
          | .ok _ => { outcome := .ok .hec, logs := [], hecAttempted := true }
          | .error .httpError =>
              { outcome := .ok .classic
                logs := [⟨.error,
                  "Failed to init HECEventWriter, will use ClassicEventWriter instead."⟩]
                hecAttempted := true }
          | .error e => { outcome := .error e, logs := [], hecAttempted := true }
      else
        { outcome := .ok .classic, logs := [], hecAttempted := false }

/-!
The `execute()` entry point (source lines 351-406).
-/

/-- The stanza-name to argument mapping decoded from the RunMode
payload (`InputDefinition.inputs`). -/
def InputSpecSet : Type := List (String × List (String × String))
deriving instance DecidableEq, Repr for InputSpecSet

/-- The decoded RunMode stdin payload: host metadata plus stanzas. -/
structure InputDefinition where
  metadata : MetadataDict
  inputs : InputSpecSet
deriving DecidableEq, Repr

/-- The decoded ValidateMode stdin payload: host metadata plus the
proposed parameters. -/
structure ValidationDefinition where
  metadata : MetadataDict
  parameters : List (String × String)
deriving DecidableEq, Repr

/-- What the user-supplied `do_run` does on given inputs: its result,
and whether it left an event sink constructed (`self._event_writer`)
and an orphan monitor started (`self._orphan_monitor`) behind. -/
structure RunEffects where
  result : Except PyExc Unit
  sinkConstructed : Bool
  monitorStarted : Bool

/-- The behaviour of the external collaborators and user callbacks
during one invocation: the stdin parse outcomes, the user run and
validation operations, and what sink `close()` and monitor `stop()`
do when invoked during cleanup. -/
structure Behavior where
  runParse : Except PyExc InputDefinition
  doRun : InputSpecSet → RunEffects
  closeResult : Except PyExc Unit
  stopResult : Except PyExc Unit
  valParse : Except PyExc ValidationDefinition
  doValidation : List (String × String) → Except PyExc Unit

/-- The observable trace of one `execute()` invocation: the outcome
(`.ok code` for a returned exit status, `.error e` for an exception
escaping `execute`), the arguments of each `do_run` and
`do_validation` call, the number of sink `close()` and monitor
`stop()` calls, the stream outputs and the log records. -/
structure ExecTrace where
  outcome : Except PyExc Int
  runCalls : List InputSpecSet
  validateCalls : List (List (String × String))
  closeCalls : Nat
  stopCalls : Nat
  stdoutOut : String
  stderrOut : String
  logs : List LogRecord

/-- The info record logged on a normal RunMode exit (line 368). -/
def run_ok_msg (title : String) : LogRecord :=
  ⟨.info, "Modular input: " ++ title ++ " exit normally."⟩

/-- The error record logged when RunMode catches an exception
(lines 371-372); the formatted traceback is summarized by `py_str`. -/
def run_err_msg (name : String) (e : PyExc) : LogRecord :=
  ⟨.error, "Modular input: " ++ name ++ " exit with exception: " ++ py_str e ++ "."⟩

/-- The error record logged when ValidateMode catches an exception
(lines 394-396). -/
def validate_err_msg (name : String) (e : PyExc) : LogRecord :=
  ⟨.error, "Modular input: " ++ name ++ " validate arguments with exception: "
    ++ py_str e ++ "."⟩

/-- Python `str.lower()`, character-wise (the dispatch arguments are
ASCII). -/
def py_lower (s : String) : String :=
  ⟨s.data.map Char.toLower⟩

/-- The error record logged on an invalid invocation (lines 403-405). -/
def invalid_args_msg (name : String) (args : List String) : LogRecord :=
  ⟨.error, "Modular input: " ++ name ++ " run with invalid arguments: \""
    ++ String.intercalate " " args ++ "\"."⟩

/-- The `finally` block of the RunMode branch (lines 374-380): close
the event writer if one exists, then stop the orphan monitor if one
exists.  Python semantics: an exception raised by `close()` skips the
`stop()` call and escapes `execute`, discarding the pending return
value; likewise an exception raised by `stop()` escapes. -/
def finally_phase (code : Int) (logs : List LogRecord)
    (runCalls : List InputSpecSet) (sink monitor : Bool)
    (closeRes stopRes : Except PyExc Unit) : ExecTrace :=
  if sink then
    match closeRes with
    | .error e =>
        { outcome := .error e, runCalls := runCalls, validateCalls := []
          closeCalls := 1, stopCalls := 0, stdoutOut := "", stderrOut := ""
          logs := logs }
    | .ok _ =>
        if monitor then
          match stopRes with
          | .error e =>
              { outcome := .error e, runCalls := runCalls, validateCalls := []
                closeCalls := 1, stopCalls := 1, stdoutOut := "", stderrOut := ""
                logs := logs }
          | .ok _ =>
              { outcome := .ok code, runCalls := runCalls, validateCalls := []
                closeCalls := 1, stopCalls := 1, stdoutOut := "", stderrOut := ""
                logs := logs }
        else
          { outcome := .ok code, runCalls := runCalls, validateCalls := []
            closeCalls := 1, stopCalls := 0, stdoutOut := "", stderrOut := ""
            logs := logs }
  else
    if monitor then
      match stopRes with
      | .error e =>
          { outcome := .error e, runCalls := runCalls, validateCalls := []
            closeCalls := 0, stopCalls := 1, stdoutOut := "", stderrOut := ""
            logs := logs }
      | .ok _ =>
          { outcome := .ok code, runCalls := runCalls, validateCalls := []
            closeCalls := 0, stopCalls := 1, stdoutOut := "", stderrOut := ""
            logs := logs }
    else
      { outcome := .ok code, runCalls := runCalls, validateCalls := []
        closeCalls := 0, stopCalls := 0, stdoutOut := "", stderrOut := ""
        logs := logs }

/-- The RunMode branch of `execute` (lines 363-380): parse the payload,
update the metadata, call `_do_run` (which calls `do_run` once), log
and return 0; any exception is caught, logged and turned into exit
code 1; the `finally` block then runs the cleanup.  A parse failure
happens before `do_run`, so no sink or monitor exists in that case. -/
def run_mode_exec (cfg : Config) (b : Behavior) : ExecTrace :=
  match b.runParse with
  | .error e =>
      finally_phase 1 [run_err_msg cfg.name e] [] false false
        b.closeResult b.stopResult
  | .ok d =>
      match (b.doRun d.inputs).result with
      | .ok _ =>
          finally_phase 0 [run_ok_msg cfg.title] [d.inputs]
            (b.doRun d.inputs).sinkConstructed (b.doRun d.inputs).monitorStarted
            b.closeResult b.stopResult
      | .error e =>
          finally_phase 1 [run_err_msg cfg.name e] [d.inputs]
            (b.doRun d.inputs).sinkConstructed (b.doRun d.inputs).monitorStarted
            b.closeResult b.stopResult

/-- The ValidateMode branch of `execute` (lines 387-401): parse the
payload, update the metadata, call `do_validation`, return 0; any
exception is caught, logged, serialized as
`<error><message>str(e)</message></error>` to stderr, and turned into
exit code 1. -/
def validate_mode_exec (cfg : Config) (b : Behavior) : ExecTrace :=
  match b.valParse with
  | .error e =>
      { outcome := .ok 1, runCalls := [], validateCalls := []
        closeCalls := 0, stopCalls := 0, stdoutOut := ""
        stderrOut := error_doc (py_str e)
        logs := [validate_err_msg cfg.name e] }
  | .ok vd =>
      match b.doValidation vd.parameters with
      | .ok _ =>
          { outcome := .ok 0, runCalls := [], validateCalls := [vd.parameters]
            closeCalls := 0, stopCalls := 0, stdoutOut := "", stderrOut := ""
            logs := [] }
      | .error e =>
          { outcome := .ok 1, runCalls := [], validateCalls := [vd.parameters]
            closeCalls := 0, stopCalls := 0, stdoutOut := ""
            stderrOut := error_doc (py_str e)
            logs := [validate_err_msg cfg.name e] }

/-- `execute()` (source lines 351-406).  `args` is `sys.argv[1:]`:
no arguments selects RunMode; a first argument whose lower-casing is
`--scheme` emits the scheme XML on stdout and returns 0; one whose
lower-casing is `--validate-arguments` selects ValidateMode; anything
else logs an error and returns 1. -/
def execute (cfg : Config) (args : List String) (b : Behavior) : ExecTrace :=
  match args with
  | [] => run_mode_exec cfg b
  | a :: _ =>
      if py_lower a = "--scheme" then
        { outcome := .ok 0, runCalls := [], validateCalls := []
          closeCalls := 0, stopCalls := 0
          stdoutOut := do_scheme_string cfg, stderrOut := "", logs := [] }
      else if py_lower a = "--validate-arguments" then
        validate_mode_exec cfg b
      else
        { outcome := .ok 1, runCalls := [], validateCalls := []
          closeCalls := 0, stopCalls := 0, stdoutOut := "", stderrOut := ""
          logs := [invalid_args_msg cfg.name args] }

/-!
Concrete fixtures used for witnesses and counterexamples.
-/

/-- A subclass configuration with the class defaults
(`use_hec_event_writer = True`, `hec_input_name = ''`). -/
def cfg_default : Config :=
  { app := "TestApp", name := "test_input", title := "Test modular input"
    description := some "A test modular input" }

/-- A configuration with a HEC input name set. -/
def cfg_hec : Config :=
  { cfg_default with hec_input_name := "hec_input" }

/-- A configuration setting only the single-instance flag. -/
def cfg_single_flag : Config :=
  { cfg_default with use_external_validation := false, use_single_instance := true }

/-- A sample host metadata dictionary. -/
def md0 : MetadataDict :=
  { server_host := "testhost"
    server_uri := "https://127.0.0.1:8089"
    session_key := "sessionkey123"
    checkpoint_dir := "/opt/checkpoints" }

/-- A sample RunMode payload with one stanza. -/
def d0 : InputDefinition :=
  { metadata := md0
    inputs := [("stanza1", [("arg1", "v1"), ("arg2", "v2")])] }

/-- A sample ValidateMode payload. -/
def vd0 : ValidationDefinition :=
  { metadata := md0, parameters := [("arg1", "v1")] }

/-- A behaviour where everything succeeds: the payloads parse, the run
operation constructs a sink and starts a monitor and returns, cleanup
succeeds, validation succeeds. -/
def b_run_ok : Behavior :=
  { runParse := .ok d0
    doRun := fun _ =>
      { result := .ok (), sinkConstructed := true, monitorStarted := true }
    closeResult := .ok ()
    stopResult := .ok ()
    valParse := .ok vd0
    doValidation := fun _ => .ok () }

/-- A behaviour whose run operation constructs a sink, starts a
monitor and then raises. -/
def b_run_raises : Behavior :=
  { b_run_ok with doRun := fun _ =>
      { result := .error (.exc "boom"), sinkConstructed := true, monitorStarted := true } }

/-- A behaviour whose run operation succeeds but whose sink `close()`
raises during cleanup. -/
def b_close_raises : Behavior :=
  { b_run_ok with
      doRun := fun _ =>
        { result := .ok (), sinkConstructed := true, monitorStarted := false }
      closeResult := .error (.exc "close failed") }

/-- A behaviour whose validation operation raises `E("bad value")`. -/
def b_val_bad : Behavior :=
  { b_run_ok with doValidation := fun _ => .error (.exc "bad value") }

/-!
Helper lemmas.
-/

/-- When both cleanup steps succeed, the `finally` block preserves the
pending exit code, the recorded calls and the logs, and performs one
`close()` per constructed sink and one `stop()` per started monitor. -/
theorem finally_phase_fields (code : Int) (logs : List LogRecord)
    (runCalls : List InputSpecSet) (sink monitor : Bool) :
    (finally_phase code logs runCalls sink monitor (.ok ()) (.ok ())).outcome = .ok code
    ∧ (finally_phase code logs runCalls sink monitor (.ok ()) (.ok ())).runCalls = runCalls
    ∧ (finally_phase code logs runCalls sink monitor (.ok ()) (.ok ())).closeCalls
        = (if sink then 1 else 0)
    ∧ (finally_phase code logs runCalls sink monitor (.ok ()) (.ok ())).stopCalls
        = (if monitor then 1 else 0)
    ∧ (finally_phase code logs runCalls sink monitor (.ok ()) (.ok ())).logs = logs := by
  cases sink <;> cases monitor <;> exact ⟨rfl, rfl, rfl, rfl, rfl⟩

/-- A `close()` exception escapes the `finally` block. -/
theorem finally_phase_close_raise (code : Int) (logs : List LogRecord)
    (runCalls : List InputSpecSet) (monitor : Bool) (e : PyExc)
    (stopRes : Except PyExc Unit) :
    (finally_phase code logs runCalls true monitor (.error e) stopRes).outcome
      = .error e := rfl

/-- A `stop()` exception escapes the `finally` block when `close()`
did not raise. -/
theorem finally_phase_stop_raise (code : Int) (logs : List LogRecord)
    (runCalls : List InputSpecSet) (sink : Bool) (e : PyExc) :
    (finally_phase code logs runCalls sink true (.ok ()) (.error e)).outcome
      = .error e := by
  cases sink <;> rfl

/-- One serialized argument parses back to itself. -/
theorem parse_argument_round (a : Argument) :
    parse_argument (argument_to_xml a) = some a := by
  obtain ⟨nm, t, d, v, dt, roe, roc⟩ := a
  cases t <;> cases d <;> cases v <;> cases roe <;> cases roc <;> rfl

/-- A serialized argument list parses back to itself. -/
theorem parse_arguments_round (l : List Argument) :
    parse_arguments (l.map argument_to_xml) = some l := by
  induction l with
  | nil => rfl
  | cons a tl ih => simp [parse_arguments, parse_argument_round, ih]

/-- Parsing a serialized scheme document reaches its argument list. -/
theorem scheme_args_round (s : Scheme) :
    parse_scheme_arguments (scheme_to_xml s)
      = parse_arguments (s.arguments.map argument_to_xml) := by
  cases h : s.description <;>
    simp [scheme_to_xml, parse_scheme_arguments, find_child_elem, opt_elem, h]

/-!
Claim theorems.
-/

/-- Claim C1: for every well-formed RunMode invocation (no extra
arguments, the stdin payload parses) whose user run operation
completes without raising and whose cleanup succeeds, `execute` calls
`do_run` exactly once with the InputSpecSet matching the parsed
stanzas and returns exit code 0. -/
theorem run_mode_success (cfg : Config) (d : InputDefinition) (b : Behavior)
    (hp : b.runParse = .ok d) (hr : (b.doRun d.inputs).result = .ok ())
    (hc : b.closeResult = .ok ()) (hs : b.stopResult = .ok ()) :
    (execute cfg [] b).outcome = .ok 0
    ∧ (execute cfg [] b).runCalls = [d.inputs] := by
  have hx : execute cfg [] b
      = finally_phase 0 [run_ok_msg cfg.title] [d.inputs]
          (b.doRun d.inputs).sinkConstructed (b.doRun d.inputs).monitorStarted
          (.ok ()) (.ok ()) := by
    simp only [execute, run_mode_exec, hp, hr, hc, hs]
  rw [hx]
  exact ⟨(finally_phase_fields _ _ _ _ _).1, (finally_phase_fields _ _ _ _ _).2.1⟩

/-- Witness for C1 at the all-success fixture behaviour. -/
theorem run_mode_success_witness :
    (execute cfg_default [] b_run_ok).outcome = .ok 0
    ∧ (execute cfg_default [] b_run_ok).runCalls = [d0.inputs] :=
  run_mode_success cfg_default d0 b_run_ok rfl rfl rfl rfl

/-- Claim C2: when the user run operation raises (or the payload fails
to parse), `execute` swallows the exception, logs one error-level
record, and returns exit code 1; cleanup is unconditional: `close()`
is invoked exactly once iff a sink was constructed and `stop()`
exactly once iff a monitor was started. -/
theorem run_mode_failure_cleanup (cfg : Config) (d : InputDefinition)
    (b : Behavior) (e : PyExc)
    (hp : b.runParse = .ok d) (hr : (b.doRun d.inputs).result = .error e)
    (hc : b.closeResult = .ok ()) (hs : b.stopResult = .ok ()) :
    (execute cfg [] b).outcome = .ok 1
    ∧ (execute cfg [] b).closeCalls
        = (if (b.doRun d.inputs).sinkConstructed then 1 else 0)
    ∧ (execute cfg [] b).stopCalls
        = (if (b.doRun d.inputs).monitorStarted then 1 else 0)
    ∧ (execute cfg [] b).logs = [run_err_msg cfg.name e]
    ∧ (run_err_msg cfg.name e).level = .error
    ∧ (∀ b2 : Behavior, ∀ e2 : PyExc, b2.runParse = .error e2 →
        b2.closeResult = .ok () → b2.stopResult = .ok () →
        (execute cfg [] b2).outcome = .ok 1) := by
  have hx : execute cfg [] b
      = finally_phase 1 [run_err_msg cfg.name e] [d.inputs]
          (b.doRun d.inputs).sinkConstructed (b.doRun d.inputs).monitorStarted
          (.ok ()) (.ok ()) := by
    simp only [execute, run_mode_exec, hp, hr, hc, hs]
  rw [hx]
  refine ⟨(finally_phase_fields _ _ _ _ _).1, (finally_phase_fields _ _ _ _ _).2.2.1,
    (finally_phase_fields _ _ _ _ _).2.2.2.1,
    (finally_phase_fields _ _ _ _ _).2.2.2.2, rfl, ?_⟩
  intro b2 e2 hp2 hc2 hs2
  have hx2 : execute cfg [] b2
      = finally_phase 1 [run_err_msg cfg.name e2] [] false false (.ok ()) (.ok ()) := by
    simp only [execute, run_mode_exec, hp2, hc2, hs2]
  rw [hx2]
  exact (finally_phase_fields _ _ _ _ _).1

/-- Witness for C2 at the raising-run fixture behaviour. -/
theorem run_mode_failure_cleanup_witness :
    (execute cfg_default [] b_run_raises).outcome = .ok 1
    ∧ (execute cfg_default [] b_run_raises).closeCalls = 1
    ∧ (execute cfg_default [] b_run_raises).stopCalls = 1 := by
  have h := run_mode_failure_cleanup cfg_default d0 b_run_raises (.exc "boom")
    rfl rfl rfl rfl
  exact ⟨h.1, by rw [h.2.1]; rfl, by rw [h.2.2.1]; rfl⟩

/-- Claim C3 counterexample: reading the `session_key` property of a
freshly constructed engine does not raise; it returns the `None`
default stored by `__init__`. -/
theorem fresh_read_counterexample :
    session_key init_engine_state = .ok none
    ∧ ¬ ∃ e : PyExc, session_key init_engine_state = .error e := by
  refine ⟨rfl, ?_⟩
  rintro ⟨e, h⟩
  exact Except.noConfusion h

/-- Claim C3 amended: reading any HostMetadata-derived property of a
freshly constructed engine silently returns the `None` default set by
`__init__`; no property read raises before metadata is updated. -/
theorem fresh_read_returns_default :
    server_host_name init_engine_state = .ok none
    ∧ server_uri init_engine_state = .ok none
    ∧ server_scheme init_engine_state = .ok none
    ∧ server_host init_engine_state = .ok none
    ∧ server_port init_engine_state = .ok none
    ∧ session_key init_engine_state = .ok none
    ∧ checkpoint_dir init_engine_state = .ok none :=
  ⟨rfl, rfl, rfl, rfl, rfl, rfl, rfl⟩

/-- Claim C4 (code bug at source line 246): `_do_scheme` assigns the
scheme's single-instance flag from `use_external_validation`, not from
`use_single_instance`; a subclass with `use_single_instance = True`
and `use_external_validation = False` emits a `False` single-instance
flag.  The external-validation flag itself is carried faithfully. -/
theorem scheme_single_instance_bug :
    cfg_single_flag.use_single_instance = true
    ∧ cfg_single_flag.use_external_validation = false
    ∧ (do_scheme_struct cfg_single_flag).use_single_instance = false
    ∧ (do_scheme_struct cfg_single_flag).use_single_instance
        ≠ cfg_single_flag.use_single_instance
    ∧ (∀ cfg : Config, (do_scheme_struct cfg).use_single_instance
        = cfg.use_external_validation)
    ∧ (∀ cfg : Config, (do_scheme_struct cfg).use_external_validation
        = cfg.use_external_validation) := by
  refine ⟨rfl, rfl, rfl, ?_, fun _ => rfl, fun _ => rfl⟩
  decide

/-- Claim C5 counterexample: the HEC-fallback path logs its single
record via `logging.error` (source line 232), so the number of
warning-level records logged is 0, not 1. -/
theorem hec_fallback_no_warning :
    (event_writer_prop cfg_hec none (.error .httpError)).logs.countP
        (fun r => r.level == .warning) = 0
    ∧ ¬ ((event_writer_prop cfg_hec none (.error .httpError)).logs.countP
        (fun r => r.level == .warning) = 1)
    ∧ (event_writer_prop cfg_hec none (.error .httpError)).logs.length = 1 := by
  refine ⟨?_, ?_, ?_⟩ <;> decide

/-- Claim C5 amended: iff HEC construction raises `binding.HTTPError`,
the engine catches it, logs exactly one record (at error level, not
warning level) and substitutes the classic writer; any other
construction exception propagates with no fallback and no log, and an
exception escaping the run operation makes `execute` return 1. -/
theorem hec_fallback_policy (cfg : Config) (e : PyExc) (d : InputDefinition)
    (b : Behavior) (hu : cfg.use_hec_event_writer = true)
    (hn : cfg.hec_input_name ≠ "") :
    ((event_writer_prop cfg none (.error .httpError)).outcome = .ok .classic
     ∧ (event_writer_prop cfg none (.error .httpError)).logs.length = 1
     ∧ ∀ r ∈ (event_writer_prop cfg none (.error .httpError)).logs,
         r.level = .error)
    ∧ (e ≠ .httpError →
        (event_writer_prop cfg none (.error e)).outcome = .error e
        ∧ (event_writer_prop cfg none (.error e)).logs = [])
    ∧ (b.runParse = .ok d → (b.doRun d.inputs).result = .error e →
        b.closeResult = .ok () → b.stopResult = .ok () →
        (execute cfg [] b).outcome = .ok 1) := by
  have hew : event_writer_prop cfg none (.error .httpError)
      = { outcome := .ok .classic
          logs := [⟨.error,
            "Failed to init HECEventWriter, will use ClassicEventWriter instead."⟩]
          hecAttempted := true } := by
    simp [event_writer_prop, hu, hn]
  refine ⟨?_, ?_, ?_⟩
  · rw [hew]
    refine ⟨rfl, rfl, ?_⟩
    intro r hr
    simp only [List.mem_singleton] at hr
    rw [hr]
  · intro hne
    cases e with
    | httpError => exact absurd rfl hne
    | assertionError m => constructor <;> simp [event_writer_prop, hu, hn]
    | exc m => constructor <;> simp [event_writer_prop, hu, hn]
  · intro hp hr hc hs
    have hx : execute cfg [] b
        = finally_phase 1 [run_err_msg cfg.name e] [d.inputs]
            (b.doRun d.inputs).sinkConstructed (b.doRun d.inputs).monitorStarted
            (.ok ()) (.ok ()) := by
      simp only [execute, run_mode_exec, hp, hr, hc, hs]
    rw [hx]
    exact (finally_phase_fields _ _ _ _ _).1

/-- Witness for the amended C5 at a configuration with a HEC input
name set. -/
theorem hec_fallback_policy_witness :
    (event_writer_prop cfg_hec none (.error .httpError)).outcome = .ok .classic
    ∧ (event_writer_prop cfg_hec none (.error (.exc "boom"))).outcome
        = .error (.exc "boom")
    ∧ (execute cfg_hec [] b_run_raises).outcome = .ok 1 := by
  have h := hec_fallback_policy cfg_hec (.exc "boom") d0 b_run_raises rfl (by decide)
  exact ⟨h.1.1, (h.2.1 (by decide)).1, h.2.2 rfl rfl rfl rfl⟩

/-- Claim C6 counterexample: with a successful run operation but a
sink `close()` that raises during cleanup, the exception escapes
`execute`; it does not return exit code 0. -/
theorem cleanup_raise_counterexample :
    (execute cfg_default [] b_close_raises).outcome = .error (.exc "close failed")
    ∧ ¬ ((execute cfg_default [] b_close_raises).outcome = .ok 0) := by
  have h1 : (execute cfg_default [] b_close_raises).outcome
      = .error (.exc "close failed") := rfl
  refine ⟨h1, ?_⟩
  rw [h1]
  intro h
  exact Except.noConfusion h

/-- Claim C6 amended: a resource-release exception during the RunMode
cleanup is not contained: the exception raised by `close()` (or by
`stop()`) propagates out of `execute`, discarding the pending success
exit code. -/
theorem cleanup_raise_propagates (cfg : Config) (d : InputDefinition)
    (b : Behavior) (e : PyExc)
    (hp : b.runParse = .ok d) (hr : (b.doRun d.inputs).result = .ok ()) :
    ((b.doRun d.inputs).sinkConstructed = true → b.closeResult = .error e →
        (execute cfg [] b).outcome = .error e)
    ∧ ((b.doRun d.inputs).monitorStarted = true → b.closeResult = .ok () →
        b.stopResult = .error e →
        (execute cfg [] b).outcome = .error e) := by
  constructor
  · intro hsink hclose
    have hx : execute cfg [] b
        = finally_phase 0 [run_ok_msg cfg.title] [d.inputs]
            true (b.doRun d.inputs).monitorStarted (.error e) b.stopResult := by
      simp only [execute, run_mode_exec, hp, hr, hsink, hclose]
    rw [hx]
    exact finally_phase_close_raise _ _ _ _ _ _
  · intro hmon hclose hstop
    have hx : execute cfg [] b
        = finally_phase 0 [run_ok_msg cfg.title] [d.inputs]
            (b.doRun d.inputs).sinkConstructed true (.ok ()) (.error e) := by
      simp only [execute, run_mode_exec, hp, hr, hmon, hclose, hstop]
    rw [hx]
    exact finally_phase_stop_raise _ _ _ _ _

/-- Witness for the amended C6 at the raising-close fixture. -/
theorem cleanup_raise_propagates_witness :
    (execute cfg_default [] b_close_raises).outcome
      = .error (.exc "close failed") :=
  (cleanup_raise_propagates cfg_default d0 b_close_raises (.exc "close failed")
    rfl rfl).1 rfl rfl

/-- Claim C7: in ValidateMode with a parsed payload, a validation
operation raising `E("bad value")` yields exit code 1 and exactly
`<error><message>bad value</message></error>` on stderr; a validation
operation that returns normally yields exit code 0 and an empty
stderr. -/
theorem validate_mode_outputs (cfg : Config) (vd : ValidationDefinition)
    (b : Behavior) (hpv : b.valParse = .ok vd) :
    (b.doValidation vd.parameters = .error (.exc "bad value") →
        (execute cfg ["--validate-arguments"] b).outcome = .ok 1
        ∧ (execute cfg ["--validate-arguments"] b).stderrOut
            = "<error><message>bad value</message></error>")
    ∧ (b.doValidation vd.parameters = .ok () →
        (execute cfg ["--validate-arguments"] b).outcome = .ok 0
        ∧ (execute cfg ["--validate-arguments"] b).stderrOut = "") := by
  have hd : execute cfg ["--validate-arguments"] b = validate_mode_exec cfg b := rfl
  constructor
  · intro hv
    rw [hd]
    have hx : validate_mode_exec cfg b
        = { outcome := .ok 1, runCalls := [], validateCalls := [vd.parameters]
            closeCalls := 0, stopCalls := 0, stdoutOut := ""
            stderrOut := error_doc (py_str (.exc "bad value"))
            logs := [validate_err_msg cfg.name (.exc "bad value")] } := by
      simp only [validate_mode_exec, hpv, hv]
    rw [hx]
    exact ⟨rfl, rfl⟩
  · intro hv
    rw [hd]
    have hx : validate_mode_exec cfg b
        = { outcome := .ok 0, runCalls := [], validateCalls := [vd.parameters]
            closeCalls := 0, stopCalls := 0, stdoutOut := "", stderrOut := ""
            logs := [] } := by
      simp only [validate_mode_exec, hpv, hv]
    rw [hx]
    exact ⟨rfl, rfl⟩

/-- Witness for C7 at the fixture behaviours. -/
theorem validate_mode_outputs_witness :
    (execute cfg_default ["--validate-arguments"] b_val_bad).outcome = .ok 1
    ∧ (execute cfg_default ["--validate-arguments"] b_val_bad).stderrOut
        = "<error><message>bad value</message></error>"
    ∧ (execute cfg_default ["--validate-arguments"] b_run_ok).outcome = .ok 0
    ∧ (execute cfg_default ["--validate-arguments"] b_run_ok).stderrOut = "" := by
  have h1 := validate_mode_outputs cfg_default vd0 b_val_bad rfl
  have h2 := validate_mode_outputs cfg_default vd0 b_run_ok rfl
  exact ⟨(h1.1 rfl).1, (h1.1 rfl).2, (h2.2 rfl).1, (h2.2 rfl).2⟩

/-- Claim C8: `execute` dispatches deterministically on the argument
vector: no extra arguments selects RunMode (the run operation is
called on the parsed stanzas); a first argument lower-casing to
`--scheme` emits the scheme XML on stdout and returns 0; one
lower-casing to `--validate-arguments` selects ValidateMode (the
validation operation is called on the parsed parameters); any other
first argument returns 1 having written nothing to stdout or stderr,
leaving only a log record. -/
theorem argv_dispatch (cfg : Config) (b : Behavior) (d : InputDefinition)
    (vd : ValidationDefinition) (s : String) (rest : List String)
    (hp : b.runParse = .ok d) (hpv : b.valParse = .ok vd)
    (hc : b.closeResult = .ok ()) (hs : b.stopResult = .ok ()) :
    (execute cfg [] b).runCalls = [d.inputs]
    ∧ (py_lower s = "--scheme" →
        (execute cfg (s :: rest) b).outcome = .ok 0
        ∧ (execute cfg (s :: rest) b).stdoutOut = do_scheme_string cfg)
    ∧ (py_lower s = "--validate-arguments" →
        (execute cfg (s :: rest) b).validateCalls = [vd.parameters])
    ∧ (¬ py_lower s = "--scheme" → ¬ py_lower s = "--validate-arguments" →
        (execute cfg (s :: rest) b).outcome = .ok 1
        ∧ (execute cfg (s :: rest) b).stdoutOut = ""
        ∧ (execute cfg (s :: rest) b).stderrOut = ""
        ∧ (execute cfg (s :: rest) b).logs
            = [invalid_args_msg cfg.name (s :: rest)]) := by
  refine ⟨?_, ?_, ?_, ?_⟩
  · cases hr : (b.doRun d.inputs).result with
    | ok u =>
        cases u
        have hx : execute cfg [] b
            = finally_phase 0 [run_ok_msg cfg.title] [d.inputs]
                (b.doRun d.inputs).sinkConstructed
                (b.doRun d.inputs).monitorStarted (.ok ()) (.ok ()) := by
          simp only [execute, run_mode_exec, hp, hr, hc, hs]
        rw [hx]
        exact (finally_phase_fields _ _ _ _ _).2.1
    | error e =>
        have hx : execute cfg [] b
            = finally_phase 1 [run_err_msg cfg.name e] [d.inputs]
                (b.doRun d.inputs).sinkConstructed
                (b.doRun d.inputs).monitorStarted (.ok ()) (.ok ()) := by
          simp only [execute, run_mode_exec, hp, hr, hc, hs]
        rw [hx]
        exact (finally_phase_fields _ _ _ _ _).2.1
  · intro hsch
    have hx : execute cfg (s :: rest) b
        = { outcome := .ok 0, runCalls := [], validateCalls := []
            closeCalls := 0, stopCalls := 0
            stdoutOut := do_scheme_string cfg, stderrOut := "", logs := [] } := by
      simp [execute, hsch]
    rw [hx]
    exact ⟨rfl, rfl⟩
  · intro hval
    have hx : execute cfg (s :: rest) b = validate_mode_exec cfg b := by
      simp [execute, hval]
    rw [hx]
    cases hdv : b.doValidation vd.parameters with
    | ok u => cases u; simp [validate_mode_exec, hpv, hdv]
    | error e2 => simp [validate_mode_exec, hpv, hdv]
  · intro h1 h2
    have hx : execute cfg (s :: rest) b
        = { outcome := .ok 1, runCalls := [], validateCalls := []
            closeCalls := 0, stopCalls := 0, stdoutOut := "", stderrOut := ""
            logs := [invalid_args_msg cfg.name (s :: rest)] } := by
      simp [execute, h1, h2]
    rw [hx]
    exact ⟨rfl, rfl, rfl, rfl⟩

/-- Witness for C8: run mode on no arguments, scheme mode on a
case-insensitive match, and the invalid-argument path. -/
theorem argv_dispatch_witness :
    (execute cfg_default [] b_run_ok).runCalls = [d0.inputs]
    ∧ (execute cfg_default ["--SCHEME"] b_run_ok).outcome = .ok 0
    ∧ (execute cfg_default ["--SCHEME"] b_run_ok).stdoutOut
        = do_scheme_string cfg_default
    ∧ (execute cfg_default ["--bogus"] b_run_ok).outcome = .ok 1
    ∧ (execute cfg_default ["--bogus"] b_run_ok).stdoutOut = ""
    ∧ (execute cfg_default ["--bogus"] b_run_ok).stderrOut = "" := by
  have h1 := argv_dispatch cfg_default b_run_ok d0 vd0 "--SCHEME" [] rfl rfl rfl rfl
  have h2 := argv_dispatch cfg_default b_run_ok d0 vd0 "--bogus" [] rfl rfl rfl rfl
  have hs1 : py_lower "--SCHEME" = "--scheme" := by decide
  have hb1 : ¬ (py_lower "--bogus" = "--scheme") := by decide
  have hb2 : ¬ (py_lower "--bogus" = "--validate-arguments") := by decide
  exact ⟨h1.1, (h1.2.1 hs1).1, (h1.2.1 hs1).2, (h2.2.2.2 hb1 hb2).1,
    (h2.2.2.2 hb1 hb2).2.1, (h2.2.2.2 hb1 hb2).2.2.1⟩

/-- Claim C9: the argument list reconstructible from the emitted
SchemeMode document equals the supplied `extra_arguments()` list with
each descriptor defaulted exactly as `_do_scheme` does, order
preserved. -/
theorem scheme_roundtrip (cfg : Config) :
    parse_scheme_arguments (scheme_to_xml (do_scheme_struct cfg))
      = some (cfg.extra_arguments.map to_argument) := by
  rw [scheme_args_round]
  show parse_arguments ((cfg.extra_arguments.map to_argument).map argument_to_xml)
      = some (cfg.extra_arguments.map to_argument)
  exact parse_arguments_round _

/-- Claim C10: with the class defaults (`use_hec_event_writer = True`,
`hec_input_name = ''`), the first `event_writer` access raises an
assertion failure before any backend is constructed, and the HEC
constructor is reachable only under a non-empty `hec_input_name`. -/
theorem default_event_writer_asserts (cfg : Config) (ctor : Except PyExc Unit)
    (h1 : cfg.use_hec_event_writer = true) (h2 : cfg.hec_input_name = "") :
    (event_writer_prop cfg none ctor).outcome
        = .error (.assertionError "hec_input_name is not set")
    ∧ (event_writer_prop cfg none ctor).hecAttempted = false
    ∧ (∀ cfg2 : Config, ∀ ctor2 : Except PyExc Unit,
        (event_writer_prop cfg2 none ctor2).hecAttempted = true →
        cfg2.hec_input_name ≠ "") := by
  refine ⟨by simp [event_writer_prop, h1, h2],
    by simp [event_writer_prop, h1, h2], ?_⟩
  intro cfg2 ctor2 hatt hname
  by_cases hu : cfg2.use_hec_event_writer = true
  · simp [event_writer_prop, hu, hname] at hatt
  · simp [event_writer_prop, hu] at hatt

/-- Witness for C10 at the default configuration. -/
theorem default_event_writer_asserts_witness :
    (event_writer_prop cfg_default none (.ok ())).outcome
        = .error (.assertionError "hec_input_name is not set")
    ∧ (event_writer_prop cfg_default none (.ok ())).hecAttempted = false :=
  ⟨(default_event_writer_asserts cfg_default (.ok ()) rfl rfl).1,
   (default_event_writer_asserts cfg_default (.ok ()) rfl rfl).2.1⟩

end Solnlib
